import Mathlib

/-!
Verification of the StatsD metrics logger (`vllm/v1/metrics/statsd.py`).

The module is embedded shallowly:

* `StatsDClient` holds the construction-time fields (`host`, `port`, the
  metric name stem `pfx` — named after the StatsD bucket stem in the Python
  source, renamed because that word is a Lean keyword — and the socket
  handle, modelled as a number).
* A network send is modelled as a `Datagram` value; the Python float-to-string
  conversion used when formatting the payload is a parameter `render`,
  since the exact decimal rendering of IEEE doubles is outside the model.
* Metric values are rationals (`ℚ`); the seconds→milliseconds and the
  `* 100` conversions of the source are exact on rationals.
* `StatsDStatLogger.record` is a pure function from the optional stats
  snapshots to the list of emissions it performs, in order.
* The process-global `_statsd_client` is threaded explicitly: the state is
  an `Option StatsDClient` and `get_statsd_client` maps an environment and
  a state to the pair (returned value, new state).
* Exceptions are `Except String`; a `try/except Exception: pass` block is a
  `match` that maps `Except.error _` to the fall-through result.  Failures
  that the source can only hit at runtime (socket creation, the UDP send)
  are injected through explicit fault parameters (`socket_ok`, `send_fail`).
-/

/-- Metric kind carried by one emission: the three StatsD sample types the
client can produce (`counter`, `gauge`, `timing`). -/
inductive MetricType where
  | counter
  | gauge
  | timing
deriving DecidableEq

/-- Wire code appended after the `|` separator for each metric kind, as in
`StatsDClient.timing/gauge/counter` which call `_send` with `"ms"`, `"g"`,
`"c"` respectively. -/
def MetricType.code : MetricType → String
  | .counter => "c"
  | .gauge => "g"
  | .timing => "ms"

/-- One logical metric emission (name, value, kind), before wire formatting. -/
structure Emission where
  name : String
  value : ℚ
  mtype : MetricType
deriving DecidableEq

/-- One UDP datagram as produced by `StatsDClient._send`: the formatted
payload and the destination taken from the client's fields. -/
structure Datagram where
  payload : String
  dest_host : String
  dest_port : ℤ
deriving DecidableEq

/-- The StatsD UDP client state set up by `StatsDClient.__init__`:
the host, the port, the name stem (here `pfx`) and the socket. -/
structure StatsDClient where
  host : String
  port : ℤ
  pfx : String
  sock : ℕ
deriving DecidableEq

/-- The message formatting and single `sendto` of `StatsDClient._send`: the
payload is the name stem, a dot, the metric name, a colon, the rendered
value, a bar and the type code, addressed to the stored host and port.
Here `render` stands for Python's default float-to-string conversion of
`value`. -/
def StatsDClient.sendD (c : StatsDClient) (render : ℚ → String) (metric : String)
    (value : ℚ) (metric_type : String) : Datagram :=
  ⟨c.pfx ++ "." ++ metric ++ ":" ++ render value ++ "|" ++ metric_type, c.host, c.port⟩

/-- Method `StatsDClient.timing`: forwards to `_send` with type code `"ms"`. -/
def StatsDClient.timingD (c : StatsDClient) (render : ℚ → String) (metric : String)
    (value_ms : ℚ) : Datagram :=
  c.sendD render metric value_ms "ms"

/-- Method `StatsDClient.gauge`: forwards to `_send` with type code `"g"`. -/
def StatsDClient.gaugeD (c : StatsDClient) (render : ℚ → String) (metric : String)
    (value : ℚ) : Datagram :=
  c.sendD render metric value "g"

/-- Method `StatsDClient.counter`: forwards to `_send` with type code `"c"`
(the Python parameter `value` defaults to `1`; the model passes it
explicitly). -/
def StatsDClient.counterD (c : StatsDClient) (render : ℚ → String) (metric : String)
    (value : ℚ) : Datagram :=
  c.sendD render metric value "c"

/-- Fault-injection context for the body of `_send`: `send_fail` is the
exception (if any) raised while formatting, encoding or sending the
datagram. -/
structure NetCtx where
  send_fail : Option String
deriving DecidableEq

/-- The fallible body of `StatsDClient._send` (the code inside the `try`):
either the injected exception, or the one datagram actually sent. -/
def trySend (ctx : NetCtx) (c : StatsDClient) (render : ℚ → String) (metric : String)
    (value : ℚ) (metric_type : String) : Except String Datagram :=
  match ctx.send_fail with
  | some e => Except.error e
  | none => Except.ok (c.sendD render metric value metric_type)

/-- Method `StatsDClient._send` with its exception handler: any error
from the body is swallowed and the method returns normally; the result is the
list of datagrams that actually left the socket (empty on failure). -/
def StatsDClient.sendCaught (c : StatsDClient) (ctx : NetCtx) (render : ℚ → String)
    (metric : String) (value : ℚ) (metric_type : String) : Except String (List Datagram) :=
  match trySend ctx c render metric value metric_type with
  | Except.error _ => Except.ok []
  | Except.ok d => Except.ok [d]

/-- Method `StatsDClient.timing` through the exception-aware `_send`. -/
def StatsDClient.timingCaught (c : StatsDClient) (ctx : NetCtx) (render : ℚ → String)
    (metric : String) (value_ms : ℚ) : Except String (List Datagram) :=
  c.sendCaught ctx render metric value_ms "ms"

/-- Method `StatsDClient.gauge` through the exception-aware `_send`. -/
def StatsDClient.gaugeCaught (c : StatsDClient) (ctx : NetCtx) (render : ℚ → String)
    (metric : String) (value : ℚ) : Except String (List Datagram) :=
  c.sendCaught ctx render metric value "g"

/-- Method `StatsDClient.counter` through the exception-aware `_send`. -/
def StatsDClient.counterCaught (c : StatsDClient) (ctx : NetCtx) (render : ℚ → String)
    (metric : String) (value : ℚ) : Except String (List Datagram) :=
  c.sendCaught ctx render metric value "c"

/-- Prefix-cache hit statistics, shape of `SchedulerStats.prefix_cache_stats`
and `SchedulerStats.connector_prefix_cache_stats` (external snapshot type). -/
structure PrefixCacheStats where
  queries : ℤ
  hits : ℤ
deriving DecidableEq

/-- Scheduler snapshot consumed by `record` (external read-only view). -/
structure SchedulerStats where
  num_running_reqs : ℤ
  num_waiting_reqs : ℤ
  kv_cache_usage : ℚ
  prefix_cache_stats : PrefixCacheStats
  connector_prefix_cache_stats : Option PrefixCacheStats
deriving DecidableEq

/-- One finished request with its latency breakdown, element type of
`IterationStats.finished_requests` (external snapshot type). -/
structure FinishedRequest where
  finish_reason : String
  e2e_latency : ℚ
  queued_time : ℚ
  inference_time : ℚ
  prefill_time : ℚ
  decode_time : ℚ
deriving DecidableEq

/-- Iteration snapshot consumed by `record` (external read-only view). -/
structure IterationStats where
  num_preempted_reqs : ℤ
  num_prompt_tokens : ℤ
  num_generation_tokens : ℤ
  time_to_first_tokens_iter : List ℚ
  inter_token_latencies_iter : List ℚ
  vision_encoding_times_iter : List ℚ
  finished_requests : List FinishedRequest
deriving DecidableEq

/-- Multi-modal cache snapshot consumed by `record` (external view). -/
structure MultiModalCacheStats where
  queries : ℤ
  hits : ℤ
deriving DecidableEq

/-- State of a `StatsDStatLogger`: the engine index list stored by
`__init__` and `self.client` (`None` when `VLLM_STATSD_HOST` was unset). -/
structure StatsDStatLogger where
  engine_indexes : List ℤ
  client : Option StatsDClient
deriving DecidableEq

/-- Method `StatsDStatLogger.record`, as the ordered list of emissions it
performs through `self.client`.  Mirrors the source: early return when
`self.client` is falsy; a guarded scheduler block (gauges, prefix-cache
counters, optional connector counters); a guarded mm-cache block; early
return when `iteration_stats` is falsy; three iteration counters; one
timing per element of the three latency lists (seconds scaled by 1000);
and per finished request one dynamically named counter (default value 1)
plus five scaled timings. -/
def StatsDStatLogger.record (self : StatsDStatLogger) (scheduler_stats : Option SchedulerStats)
    (iteration_stats : Option IterationStats) (mm_cache_stats : Option MultiModalCacheStats)
    (engine_idx : ℤ) : List Emission :=
  match self.client with
  | none => []
  | some _ =>
    let schedEmissions : List Emission :=
      match scheduler_stats with
      | none => []
      | some s =>
        [⟨"num_requests_running", (s.num_running_reqs : ℚ), MetricType.gauge⟩,
         ⟨"num_requests_waiting", (s.num_waiting_reqs : ℚ), MetricType.gauge⟩,
         ⟨"kv_cache_usage_perc", s.kv_cache_usage * 100, MetricType.gauge⟩,
         ⟨"prefix_cache_queries", (s.prefix_cache_stats.queries : ℚ), MetricType.counter⟩,
         ⟨"prefix_cache_hits", (s.prefix_cache_stats.hits : ℚ), MetricType.counter⟩] ++
        (match s.connector_prefix_cache_stats with
         | none => []
         | some cs =>
           [⟨"external_prefix_cache_queries", (cs.queries : ℚ), MetricType.counter⟩,
            ⟨"external_prefix_cache_hits", (cs.hits : ℚ), MetricType.counter⟩])
    let mmEmissions : List Emission :=
      match mm_cache_stats with
      | none => []
      | some mm =>
        [⟨"mm_cache_queries", (mm.queries : ℚ), MetricType.counter⟩,
         ⟨"mm_cache_hits", (mm.hits : ℚ), MetricType.counter⟩]
    match iteration_stats with
    | none => schedEmissions ++ mmEmissions
    | some it =>
      schedEmissions ++ mmEmissions ++
      ([⟨"num_preemptions", (it.num_preempted_reqs : ℚ), MetricType.counter⟩,
        ⟨"prompt_tokens", (it.num_prompt_tokens : ℚ), MetricType.counter⟩,
        ⟨"generation_tokens", (it.num_generation_tokens : ℚ), MetricType.counter⟩] ++
       it.time_to_first_tokens_iter.map
         (fun ttft => ⟨"time_to_first_token_seconds", ttft * 1000, MetricType.timing⟩) ++
       it.inter_token_latencies_iter.map
         (fun itl => ⟨"inter_token_latency_seconds", itl * 1000, MetricType.timing⟩) ++
       it.vision_encoding_times_iter.map
         (fun vt => ⟨"vision_encoding_seconds", vt * 1000, MetricType.timing⟩) ++
       it.finished_requests.flatMap
         (fun req =>
           [⟨"request_success." ++ req.finish_reason, 1, MetricType.counter⟩,
            ⟨"e2e_request_latency_seconds", req.e2e_latency * 1000, MetricType.timing⟩,
            ⟨"request_queue_time_seconds", req.queued_time * 1000, MetricType.timing⟩,
            ⟨"request_inference_time_seconds", req.inference_time * 1000, MetricType.timing⟩,
            ⟨"request_prefill_time_seconds", req.prefill_time * 1000, MetricType.timing⟩,
            ⟨"request_decode_time_seconds", req.decode_time * 1000, MetricType.timing⟩]))

/-- Process environment as read by this module: the raw values of
`VLLM_STATSD_HOST` and `VLLM_STATSD_PORT` (`none` = variable absent), plus
`socket_ok`, the injected outcome of `socket.socket(...)` during client
construction. -/
structure Env where
  vllm_statsd_host : Option String
  vllm_statsd_port : Option String
  socket_ok : Bool
deriving DecidableEq

/-- Python truthiness of `os.getenv` output: `None` and the empty string are
falsy, every other string is truthy. -/
def truthyStr : Option String → Bool
  | none => false
  | some s => !s.isEmpty

/-- Numeric value of a digit list, most significant first. -/
def digitsVal (l : List Char) : ℕ :=
  l.foldl (fun acc c => acc * 10 + (c.toNat - '0'.toNat)) 0

/-- The characters of `s` with leading and trailing whitespace removed. -/
def pyStripped (s : String) : List Char :=
  ((s.toList.dropWhile Char.isWhitespace).reverse.dropWhile Char.isWhitespace).reverse

/-- Python's `int(s)` on a string: optional surrounding whitespace, optional
sign, then a nonempty run of decimal digits; `none` models the `ValueError`
raised on anything else.  (Underscore separators and non-ASCII digits, which
CPython also accepts, are outside the model.) -/
def pyInt? (s : String) : Option ℤ :=
  match pyStripped s with
  | [] => none
  | c :: rest =>
    if c = '-' then
      if rest ≠ [] ∧ rest.all Char.isDigit then some (-(digitsVal rest : ℤ)) else none
    else if c = '+' then
      if rest ≠ [] ∧ rest.all Char.isDigit then some (digitsVal rest : ℤ) else none
    else
      if (c :: rest).all Char.isDigit then some (digitsVal (c :: rest) : ℤ) else none

/-- Constructor `StatsDClient.__init__`: stores host, port and the `"vllm"` name stem and
opens a UDP socket; errors (`Except.error`) only if socket creation itself
fails (injected through `env.socket_ok`). -/
def StatsDClient.construct (env : Env) (host : String) (port : ℤ) : Except String StatsDClient :=
  if env.socket_ok then Except.ok ⟨host, port, "vllm", 0⟩
  else Except.error "TransportInitError"

/-- The expression `StatsDClient(host, int(port))` evaluated inside the `try`
of `get_statsd_client`: the port parse (`ValueError` on failure) followed by
client construction. -/
def attemptInit (env : Env) (host : String) (portStr : String) : Except String StatsDClient :=
  match pyInt? portStr with
  | none => Except.error "ValueError"
  | some p => StatsDClient.construct env host p

/-- Function `get_statsd_client`: given the environment and the current value of the
global `_statsd_client`, returns the pair (function result, new global).
If the global is already set it is returned unchanged; otherwise the host is
read, and when truthy a construction attempt runs inside `try/except`; on
any failure the global is left at `None`. -/
def get_statsd_client (env : Env) (st : Option StatsDClient) :
    Option StatsDClient × Option StatsDClient :=
  match st with
  | some c => (some c, some c)
  | none =>
    if truthyStr env.vllm_statsd_host then
      match attemptInit env ((env.vllm_statsd_host).getD "")
          ((env.vllm_statsd_port).getD "8125") with
      | Except.error _ => (none, none)
      | Except.ok c => (some c, some c)
    else (none, none)

/-- Constructor `StatsDStatLogger.__init__`: reads the host, evaluates
`int(os.getenv("VLLM_STATSD_PORT", "8125"))` OUTSIDE any exception handler
(so a non-numeric port raises `ValueError` out of the constructor, even when
the host is unset), then builds the client only when the host is truthy. -/
def StatsDStatLogger.construct (env : Env) (engine_indexes : List ℤ) :
    Except String StatsDStatLogger :=
  match pyInt? ((env.vllm_statsd_port).getD "8125") with
  | none => Except.error "ValueError"
  | some port =>
    if truthyStr env.vllm_statsd_host then
      match StatsDClient.construct env ((env.vllm_statsd_host).getD "") port with
      | Except.error e => Except.error e
      | Except.ok c => Except.ok ⟨engine_indexes, some c⟩
    else Except.ok ⟨engine_indexes, none⟩

/-- Result of one `record_metric` call: the values pushed to the external
vision-encoding buffer (`record_vision_encoding_time`), the emissions that
went through the StatsD client, and the new value of the global client. -/
structure RecordMetricResult where
  buffer_calls : List ℚ
  emissions : List Emission
  new_state : Option StatsDClient
deriving DecidableEq

/-- Function `record_metric`: writes the raw value to the
vision-encoding buffer when the name/type pair matches, then independently
fetches the global client via `get_statsd_client` and, if configured, emits
once through it — timings scaled by 1000, counters and gauges unscaled,
unknown type strings emitting nothing. -/
def record_metric (env : Env) (st : Option StatsDClient) (metric : String)
    (value : ℚ) (metric_type : String) : RecordMetricResult :=
  let buf : List ℚ :=
    if metric = "vision_encoding_seconds" ∧ metric_type = "timing" then [value] else []
  let g := get_statsd_client env st
  let ems : List Emission :=
    match g.1 with
    | none => []
    | some _ =>
      if metric_type = "timing" then [⟨metric, value * 1000, MetricType.timing⟩]
      else if metric_type = "counter" then [⟨metric, value, MetricType.counter⟩]
      else if metric_type = "gauge" then [⟨metric, value, MetricType.gauge⟩]
      else []
  ⟨buf, ems, g.2⟩

/-- One client method call (`timing`/`gauge`/`counter`, each reaching
`_send`) in state-threading form: the pair (client after the call, datagram
attempted).  The method bodies only read the client fields and assign to
no attribute, so the resulting client is the
receiver itself. -/
def StatsDClient.emitS (c : StatsDClient) (render : ℚ → String) (e : Emission) :
    StatsDClient × Datagram :=
  (c, c.sendD render e.name e.value e.mtype.code)

/-- A sequence of client method calls in state-threading form, as performed
by one `record` call when applied to the emission list `record` produces. -/
def StatsDClient.emitAll (render : ℚ → String) :
    StatsDClient → List Emission → StatsDClient × List Datagram
  | c, [] => (c, [])
  | c, e :: es =>
    let p := StatsDClient.emitS c render e
    let q := StatsDClient.emitAll render p.1 es
    (q.1, p.2 :: q.2)

/-- Spec section 4.2, step 1: scheduler gauges and counters in the spec's
listed order, with the connector counters appended when present.  This
definition restates the SPEC's wording, for comparison with `record`. -/
def recordSpecScheduler : Option SchedulerStats → List Emission
  | none => []
  | some s =>
    [⟨"num_requests_running", (s.num_running_reqs : ℚ), MetricType.gauge⟩,
     ⟨"num_requests_waiting", (s.num_waiting_reqs : ℚ), MetricType.gauge⟩,
     ⟨"kv_cache_usage_perc", s.kv_cache_usage * 100, MetricType.gauge⟩,
     ⟨"prefix_cache_queries", (s.prefix_cache_stats.queries : ℚ), MetricType.counter⟩,
     ⟨"prefix_cache_hits", (s.prefix_cache_stats.hits : ℚ), MetricType.counter⟩] ++
    (match s.connector_prefix_cache_stats with
     | none => []
     | some cs =>
       [⟨"external_prefix_cache_queries", (cs.queries : ℚ), MetricType.counter⟩,
        ⟨"external_prefix_cache_hits", (cs.hits : ℚ), MetricType.counter⟩])

/-- Spec section 4.2, step 2: the two mm-cache counters when present.
Restates the SPEC's wording. -/
def recordSpecMMCache : Option MultiModalCacheStats → List Emission
  | none => []
  | some mm =>
    [⟨"mm_cache_queries", (mm.queries : ℚ), MetricType.counter⟩,
     ⟨"mm_cache_hits", (mm.hits : ℚ), MetricType.counter⟩]

/-- Spec section 4.2, steps 3-4: nothing when `iteration` is absent;
otherwise the three counters, one timing per latency-list element
(seconds scaled by 1000), then per finished request the dynamically named
success counter and the five scaled timings.  Restates the SPEC's wording. -/
def recordSpecIteration : Option IterationStats → List Emission
  | none => []
  | some it =>
    [⟨"num_preemptions", (it.num_preempted_reqs : ℚ), MetricType.counter⟩,
     ⟨"prompt_tokens", (it.num_prompt_tokens : ℚ), MetricType.counter⟩,
     ⟨"generation_tokens", (it.num_generation_tokens : ℚ), MetricType.counter⟩] ++
    it.time_to_first_tokens_iter.map
      (fun ttft => ⟨"time_to_first_token_seconds", ttft * 1000, MetricType.timing⟩) ++
    it.inter_token_latencies_iter.map
      (fun itl => ⟨"inter_token_latency_seconds", itl * 1000, MetricType.timing⟩) ++
    it.vision_encoding_times_iter.map
      (fun vt => ⟨"vision_encoding_seconds", vt * 1000, MetricType.timing⟩) ++
    it.finished_requests.flatMap
      (fun req =>
        [⟨"request_success." ++ req.finish_reason, 1, MetricType.counter⟩,
         ⟨"e2e_request_latency_seconds", req.e2e_latency * 1000, MetricType.timing⟩,
         ⟨"request_queue_time_seconds", req.queued_time * 1000, MetricType.timing⟩,
         ⟨"request_inference_time_seconds", req.inference_time * 1000, MetricType.timing⟩,
         ⟨"request_prefill_time_seconds", req.prefill_time * 1000, MetricType.timing⟩,
         ⟨"request_decode_time_seconds", req.decode_time * 1000, MetricType.timing⟩])

/-- Spec section 4.2, assembled: the fixed emission order promised by the
spec for one `record` call with a configured transport. -/
def recordSpec (scheduler : Option SchedulerStats) (iteration : Option IterationStats)
    (mmCache : Option MultiModalCacheStats) : List Emission :=
  recordSpecScheduler scheduler ++ recordSpecMMCache mmCache ++ recordSpecIteration iteration

/-- C1: with no client configured `record` emits nothing; with a client it
emits exactly the fixed sequence of spec section 4.2 (scheduler gauges and
counters with optional connector counters, mm-cache counters, then — only
when `iteration_stats` is present — the three iteration counters, the three
per-element timing loops and the per-finished-request emissions); in
particular zero emissions when all three inputs are absent even with a
client configured. -/
theorem record_refines_spec_order (lg : StatsDStatLogger) (s : Option SchedulerStats)
    (i : Option IterationStats) (m : Option MultiModalCacheStats) (eidx : ℤ) :
    lg.record s i m eidx = (if lg.client.isSome then recordSpec s i m else []) ∧
    lg.record none none none eidx = [] := by
  obtain ⟨idxs, cl⟩ := lg
  cases cl with
  | none => exact ⟨rfl, rfl⟩
  | some c =>
    refine ⟨?_, rfl⟩
    cases i with
    | none =>
      cases s <;> cases m <;>
        simp [StatsDStatLogger.record, recordSpec, recordSpecScheduler,
          recordSpecMMCache, recordSpecIteration]
    | some it =>
      cases s <;> cases m <;>
        simp [StatsDStatLogger.record, recordSpec, recordSpecScheduler,
          recordSpecMMCache, recordSpecIteration, List.append_assoc]

/-- C2 counterexample: with a client configured and only `scheduler_stats`
present, `record` emits 5 metrics when the connector stats are absent and 7
when present (3 gauges + 2 prefix-cache counters, + 2 connector counters),
not the 4 and 6 the claim states. -/
theorem record_scheduler_only_count_ne_four :
    (StatsDStatLogger.record ⟨[0], some ⟨"h", 8125, "vllm", 0⟩⟩
        (some ⟨1, 2, 1 / 2, ⟨3, 4⟩, none⟩) none none 0).length = 5 ∧
    (StatsDStatLogger.record ⟨[0], some ⟨"h", 8125, "vllm", 0⟩⟩
        (some ⟨1, 2, 1 / 2, ⟨3, 4⟩, none⟩) none none 0).length ≠ 4 ∧
    (StatsDStatLogger.record ⟨[0], some ⟨"h", 8125, "vllm", 0⟩⟩
        (some ⟨1, 2, 1 / 2, ⟨3, 4⟩, some ⟨5, 6⟩⟩) none none 0).length = 7 ∧
    (StatsDStatLogger.record ⟨[0], some ⟨"h", 8125, "vllm", 0⟩⟩
        (some ⟨1, 2, 1 / 2, ⟨3, 4⟩, some ⟨5, 6⟩⟩) none none 0).length ≠ 6 := by
  refine ⟨by decide, by decide, by decide, by decide⟩

/-- C2 amended: a `record` call with only `scheduler_stats` present emits
exactly 5 metrics when `connector_prefix_cache_stats` is absent and exactly
7 when it is present, and every emitted metric is one of the scheduler
metric names — none of the iteration-derived metrics is touched. -/
theorem record_scheduler_only_count (c : StatsDClient) (idxs : List ℤ)
    (s : SchedulerStats) (eidx : ℤ) :
    (StatsDStatLogger.record ⟨idxs, some c⟩ (some s) none none eidx).length
      = (if s.connector_prefix_cache_stats.isSome then 7 else 5) ∧
    (StatsDStatLogger.record ⟨idxs, some c⟩ (some s) none none eidx).all
      (fun e =>
        ["num_requests_running", "num_requests_waiting", "kv_cache_usage_perc",
         "prefix_cache_queries", "prefix_cache_hits",
         "external_prefix_cache_queries", "external_prefix_cache_hits"].contains e.name)
      = true := by
  cases hc : s.connector_prefix_cache_stats <;>
    simp [StatsDStatLogger.record, hc]

/-- C3 counterexample: a first `get_statsd_client` call with the host
variable absent leaves the global at `None`, and a second call under an
environment that now carries a host re-reads the environment and constructs
a client — the unconfigured state is NOT permanent and a subsequent call
does not return the unconfigured marker. -/
theorem get_statsd_client_retries_after_unconfigured :
    (get_statsd_client ⟨none, none, true⟩ none).2 = none ∧
    (get_statsd_client ⟨some "h", none, true⟩
        ((get_statsd_client ⟨none, none, true⟩ none).2)).1
      = some ⟨"h", 8125, "vllm", 0⟩ := by
  exact ⟨rfl, rfl⟩

/-- C3 amended: the initializer is one-shot only on success — once the
global holds a client, every later call returns that exact client without
re-reading the environment or constructing again (the result is the same
for every environment); the function always stores exactly what it returns;
but when a call leaves the global unset (host absent/empty or construction
failed), the next call behaves exactly like a fresh first call: it re-reads
the environment and may attempt construction again. -/
theorem get_statsd_client_memoizes_success_only (env nextEnv : Env)
    (c : StatsDClient) (st : Option StatsDClient) :
    get_statsd_client env (some c) = (some c, some c) ∧
    (get_statsd_client env st).2 = (get_statsd_client env st).1 ∧
    ((get_statsd_client env st).2 = none →
      get_statsd_client nextEnv ((get_statsd_client env st).2)
        = get_statsd_client nextEnv none) := by
  refine ⟨rfl, ?_, ?_⟩
  · cases st with
    | some c' => rfl
    | none =>
      unfold get_statsd_client
      by_cases ht : truthyStr env.vllm_statsd_host
      · simp only [ht, if_true]
        cases attemptInit env ((env.vllm_statsd_host).getD "")
            ((env.vllm_statsd_port).getD "8125") <;> rfl
      · simp only [ht, Bool.false_eq_true, if_false]
  · intro h
    rw [h]

/-- C3 amended, witness: after an unconfigured first call the next call is
exactly a fresh call. -/
theorem get_statsd_client_memoizes_success_only_witness :
    get_statsd_client ⟨some "h", none, true⟩
        ((get_statsd_client ⟨none, none, true⟩ none).2)
      = get_statsd_client ⟨some "h", none, true⟩ none :=
  (get_statsd_client_memoizes_success_only ⟨none, none, true⟩ ⟨some "h", none, true⟩
    ⟨"h", 8125, "vllm", 0⟩ none).2.2 rfl

/-- C4: for every host, port, name stem, metric and value, a send produces
exactly one datagram with payload `<stem>.<metric>:<value>|<code>`, where the
code is `c` for a counter call, `g` for a gauge call and `ms` for a timing
call; these three codes are the only ones the client can produce; and when
the value renders as `1.5`, `timing("x", 1.5)` yields payload
`<stem>.x:1.5|ms`. -/
theorem send_payload_format (c : StatsDClient) (render : ℚ → String)
    (metric : String) (value : ℚ) :
    c.timingD render metric value
      = ⟨c.pfx ++ "." ++ metric ++ ":" ++ render value ++ "|" ++ "ms", c.host, c.port⟩ ∧
    c.gaugeD render metric value
      = ⟨c.pfx ++ "." ++ metric ++ ":" ++ render value ++ "|" ++ "g", c.host, c.port⟩ ∧
    c.counterD render metric value
      = ⟨c.pfx ++ "." ++ metric ++ ":" ++ render value ++ "|" ++ "c", c.host, c.port⟩ ∧
    (∀ mt : MetricType, mt.code = "c" ∨ mt.code = "g" ∨ mt.code = "ms") ∧
    (render (3 / 2) = "1.5" →
      c.timingD render "x" (3 / 2) = ⟨c.pfx ++ ".x:1.5|ms", c.host, c.port⟩) := by
  refine ⟨rfl, rfl, rfl, ?_, ?_⟩
  · intro mt
    cases mt
    · exact Or.inl rfl
    · exact Or.inr (Or.inl rfl)
    · exact Or.inr (Or.inr rfl)
  · intro h
    simp [StatsDClient.timingD, StatsDClient.sendD, h, Datagram.mk.injEq,
      String.append_assoc]

/-- C4 witness: a concrete client and rendering produce the exact payload. -/
theorem send_payload_format_witness :
    (StatsDClient.mk "h" 8125 "vllm" 0).timingD (fun _ => "1.5") "x" (3 / 2)
      = ⟨(StatsDClient.mk "h" 8125 "vllm" 0).pfx ++ ".x:1.5|ms", "h", 8125⟩ :=
  (send_payload_format (StatsDClient.mk "h" 8125 "vllm" 0) (fun _ => "1.5")
    "x" (3 / 2)).2.2.2.2 rfl

/-- C5: `_send` (and hence `timing`, `gauge`, `counter`) never fails
observably: whatever exception the body raises, the handler swallows it and
the call returns normally — the result is always `Except.ok`, carrying the
single datagram on success and nothing when the injected failure fired. -/
theorem send_never_fails (ctx : NetCtx) (c : StatsDClient) (render : ℚ → String)
    (metric : String) (value : ℚ) (metric_type : String) :
    c.sendCaught ctx render metric value metric_type
      = Except.ok (match ctx.send_fail with
          | some _ => []
          | none => [c.sendD render metric value metric_type]) ∧
    (c.timingCaught ctx render metric value).isOk = true ∧
    (c.gaugeCaught ctx render metric value).isOk = true ∧
    (c.counterCaught ctx render metric value).isOk = true := by
  cases hf : ctx.send_fail <;>
    simp [StatsDClient.sendCaught, trySend, hf, StatsDClient.timingCaught,
      StatsDClient.gaugeCaught, StatsDClient.counterCaught, Except.isOk,
      Except.toBool]

/-- C6: for each of the three latency list fields, `record` emits exactly
one Timing per list element — the Timings with that field's metric name are
exactly the list's elements in order, each scaled by 1000 (seconds to
milliseconds) — regardless of the scheduler and mm-cache inputs. -/
theorem record_timing_per_element (c : StatsDClient) (idxs : List ℤ)
    (s : Option SchedulerStats) (m : Option MultiModalCacheStats)
    (it : IterationStats) (eidx : ℤ) :
    (StatsDStatLogger.record ⟨idxs, some c⟩ s (some it) m eidx).filter
        (fun e => e.mtype = MetricType.timing ∧ e.name = "time_to_first_token_seconds")
      = it.time_to_first_tokens_iter.map
          (fun v => ⟨"time_to_first_token_seconds", v * 1000, MetricType.timing⟩) ∧
    (StatsDStatLogger.record ⟨idxs, some c⟩ s (some it) m eidx).filter
        (fun e => e.mtype = MetricType.timing ∧ e.name = "inter_token_latency_seconds")
      = it.inter_token_latencies_iter.map
          (fun v => ⟨"inter_token_latency_seconds", v * 1000, MetricType.timing⟩) ∧
    (StatsDStatLogger.record ⟨idxs, some c⟩ s (some it) m eidx).filter
        (fun e => e.mtype = MetricType.timing ∧ e.name = "vision_encoding_seconds")
      = it.vision_encoding_times_iter.map
          (fun v => ⟨"vision_encoding_seconds", v * 1000, MetricType.timing⟩) := by
  refine ⟨?_, ?_, ?_⟩ <;>
  · cases s with
    | none =>
      cases m <;>
        simp [StatsDStatLogger.record, List.filter_append, List.filter_map,
          List.filter_flatMap, Function.comp_def]
    | some sv =>
      cases m <;> cases hcs : sv.connector_prefix_cache_stats <;>
        simp [StatsDStatLogger.record, hcs, List.filter_append, List.filter_map,
          List.filter_flatMap, Function.comp_def]

/-- C7: with `iteration_stats` present, `record` appends — after whatever
the other inputs produced and the three iteration counters and latency
loops — for each entry of `finished_requests`, exactly one counter named
`request_success.<finish_reason>` with the default counter value 1,
followed by exactly five Timings (`e2e_request_latency_seconds`,
`request_queue_time_seconds`, `request_inference_time_seconds`,
`request_prefill_time_seconds`, `request_decode_time_seconds`), each
carrying the corresponding field value scaled by 1000. -/
theorem record_finished_request_emissions (c : StatsDClient) (idxs : List ℤ)
    (s : Option SchedulerStats) (m : Option MultiModalCacheStats)
    (it : IterationStats) (eidx : ℤ) :
    StatsDStatLogger.record ⟨idxs, some c⟩ s (some it) m eidx
      = StatsDStatLogger.record ⟨idxs, some c⟩ s none m eidx ++
        ([⟨"num_preemptions", (it.num_preempted_reqs : ℚ), MetricType.counter⟩,
          ⟨"prompt_tokens", (it.num_prompt_tokens : ℚ), MetricType.counter⟩,
          ⟨"generation_tokens", (it.num_generation_tokens : ℚ), MetricType.counter⟩] ++
         it.time_to_first_tokens_iter.map
           (fun ttft => ⟨"time_to_first_token_seconds", ttft * 1000, MetricType.timing⟩) ++
         it.inter_token_latencies_iter.map
           (fun itl => ⟨"inter_token_latency_seconds", itl * 1000, MetricType.timing⟩) ++
         it.vision_encoding_times_iter.map
           (fun vt => ⟨"vision_encoding_seconds", vt * 1000, MetricType.timing⟩) ++
         it.finished_requests.flatMap
           (fun req =>
             [⟨"request_success." ++ req.finish_reason, 1, MetricType.counter⟩,
              ⟨"e2e_request_latency_seconds", req.e2e_latency * 1000, MetricType.timing⟩,
              ⟨"request_queue_time_seconds", req.queued_time * 1000, MetricType.timing⟩,
              ⟨"request_inference_time_seconds", req.inference_time * 1000,
                MetricType.timing⟩,
              ⟨"request_prefill_time_seconds", req.prefill_time * 1000, MetricType.timing⟩,
              ⟨"request_decode_time_seconds", req.decode_time * 1000,
                MetricType.timing⟩])) := by
  cases s <;> cases m <;> simp [StatsDStatLogger.record, List.append_assoc]

/-- C8: `record_metric` writes the raw seconds value to the external
vision-encoding buffer exactly once whenever (and only when) the metric is
`vision_encoding_seconds` with kind `timing`, regardless of whether a client
is configured; independently, whenever the registry yields a client the
metric is also emitted through it, timings scaled by 1000 and
counter/gauge values unchanged. -/
theorem record_metric_buffer_and_emission (env : Env) (st : Option StatsDClient)
    (metric : String) (value : ℚ) (metric_type : String) :
    (record_metric env st metric value metric_type).buffer_calls
      = (if metric = "vision_encoding_seconds" ∧ metric_type = "timing"
          then [value] else []) ∧
    (record_metric env st "vision_encoding_seconds" value "timing").buffer_calls
      = [value] ∧
    (record_metric env st metric value metric_type).emissions
      = (match (get_statsd_client env st).1 with
         | none => []
         | some _ =>
           if metric_type = "timing" then [⟨metric, value * 1000, MetricType.timing⟩]
           else if metric_type = "counter" then [⟨metric, value, MetricType.counter⟩]
           else if metric_type = "gauge" then [⟨metric, value, MetricType.gauge⟩]
           else []) := by
  refine ⟨rfl, by simp [record_metric], rfl⟩

/-- Helper: threading any emission list through the client methods leaves
the client state unchanged. -/
theorem emitAll_fst_eq (render : ℚ → String) (c : StatsDClient) (es : List Emission) :
    (StatsDClient.emitAll render c es).1 = c := by
  induction es with
  | nil => rfl
  | cons e es ih => simpa [StatsDClient.emitAll, StatsDClient.emitS] using ih

/-- C9: the client's `host`, `port`, name stem and socket handle are
immutable after construction — a single method call and any full `record`
call threaded through the client return it with all fields unchanged. -/
theorem client_fields_immutable (c : StatsDClient) (render : ℚ → String)
    (e : Emission) (es : List Emission) (idxs : List ℤ) (s : Option SchedulerStats)
    (i : Option IterationStats) (m : Option MultiModalCacheStats) (eidx : ℤ) :
    (c.emitS render e).1 = c ∧
    (StatsDClient.emitAll render c es).1 = c ∧
    (StatsDClient.emitAll render c
        (StatsDStatLogger.record ⟨idxs, some c⟩ s i m eidx)).1 = c ∧
    (c.emitS render e).1.host = c.host ∧
    (c.emitS render e).1.port = c.port ∧
    (c.emitS render e).1.pfx = c.pfx ∧
    (c.emitS render e).1.sock = c.sock :=
  ⟨rfl, emitAll_fst_eq render c es,
    emitAll_fst_eq render c (StatsDStatLogger.record ⟨idxs, some c⟩ s i m eidx),
    rfl, rfl, rfl, rfl⟩

/-- C10: `get_statsd_client` never lets a construction error escape — in
particular with a truthy host and a non-numeric port string the
integer-parse failure is caught, the call returns `None` and the global
stays unset; more generally any failed construction attempt yields
`(none, none)`.  By contrast, the logger constructor evaluates
`int(os.getenv("VLLM_STATSD_PORT", "8125"))` outside any handler and
raises `ValueError` on the same input. -/
theorem get_statsd_client_bad_port (env : Env) (idxs : List ℤ) (h s : String)
    (hh : env.vllm_statsd_host = some h) (hne : h ≠ "")
    (hp : env.vllm_statsd_port = some s) (hbad : pyInt? s = none) :
    get_statsd_client env none = (none, none) ∧
    StatsDStatLogger.construct env idxs = Except.error "ValueError" ∧
    (∀ env2 : Env,
      (attemptInit env2 ((env2.vllm_statsd_host).getD "")
          ((env2.vllm_statsd_port).getD "8125")).isOk = false →
      get_statsd_client env2 none = (none, none)) := by
  have hie : h.isEmpty = false := by
    cases hE : h.isEmpty
    · rfl
    · exact absurd ((String.isEmpty_iff h).mp hE) hne
  have ht : truthyStr env.vllm_statsd_host = true := by
    simp [truthyStr, hh, hie]
  refine ⟨?_, ?_, ?_⟩
  · simp [get_statsd_client, ht, attemptInit, hp, hbad]
  · simp [StatsDStatLogger.construct, hp, hbad]
  · intro env2 hfail
    unfold get_statsd_client
    by_cases ht2 : truthyStr env2.vllm_statsd_host
    · simp only [ht2, if_true]
      cases hA : attemptInit env2 ((env2.vllm_statsd_host).getD "")
          ((env2.vllm_statsd_port).getD "8125") with
      | error e2 => rfl
      | ok c2 =>
        rw [hA] at hfail
        simp [Except.isOk, Except.toBool] at hfail
    · simp only [ht2, Bool.false_eq_true, if_false]

/-- C10 witness: a concrete environment with host `"h"` and port `"abc"`. -/
theorem get_statsd_client_bad_port_witness :
    get_statsd_client ⟨some "h", some "abc", true⟩ none = (none, none) ∧
    StatsDStatLogger.construct ⟨some "h", some "abc", true⟩ []
      = Except.error "ValueError" := by
  have hmain := get_statsd_client_bad_port ⟨some "h", some "abc", true⟩ [] "h" "abc"
    rfl (by decide) rfl (by decide)
  exact ⟨hmain.1, hmain.2.1⟩
